import Mathlib

/-
Verification development for extractDemHeight.c (src/src/extractDemHeight.c).

The program maps a latitude/longitude pair into a hardcoded geographic
bounding box, converts it to a pixel address by truncating casts, reads one
scanline of a 16-bit GeoTIFF DEM, and prints the sample at that pixel.

Shallow embedding conventions:
  * float/double arithmetic is modelled over the rationals;
  * the C cast (int) of a real value is truncation toward zero;
  * a call to exit(n) is modelled as an explicit outcome carrying n;
  * the TIFF library is modelled by the observable data the program asks it
    for (tag values, scanline contents, allocation success);
  * pointer-level behaviour (malloc/free of scanline buffers, the file
    handle) is modelled by explicit pointer identifiers and event lists.
-/

namespace ExtractDemHeight

/-- The C cast (int) applied to a real value: truncation toward zero. -/
def truncTowardZero (q : ℚ) : ℤ := if 0 ≤ q then ⌊q⌋ else ⌈q⌉

/-- DEM_Gtif.UL[0], assigned in main line 45 (108.0 decimal degrees). -/
def ulLong : ℚ := 108

/-- DEM_Gtif.UL[1], assigned in main line 46 (-8.0 decimal degrees). -/
def ulLat : ℚ := -8

/-- DEM_Gtif.LL[0], assigned in main line 49 (108.0 decimal degrees). -/
def llLong : ℚ := 108

/-- DEM_Gtif.LL[1], assigned in main line 50 (-48.0 decimal degrees). -/
def llLat : ℚ := -48

/-- DEM_Gtif.LR[0], assigned in main line 57 (157.99999999 decimal degrees). -/
def lrLong : ℚ := 15799999999 / 100000000

/-- DEM_Gtif.LR[1], assigned in main line 58 (-48.0 decimal degrees). -/
def lrLat : ℚ := -48

/-- Latitude range check, main lines 65-68: error when
Lat > DEM_Gtif.UL[1] or Lat < DEM_Gtif.LR[1]. -/
def latOutOfRange (lat : ℚ) : Bool :=
  decide (lat > ulLat) || decide (lat < lrLat)

/-- Longitude range check, main lines 69-72: error when
Long < DEM_Gtif.UL[0] or Long > DEM_Gtif.LR[0]. -/
def longOutOfRange (long : ℚ) : Bool :=
  decide (long < ulLong) || decide (long > lrLong)

/-- LineNo = (int)(-(Lat - DEM_Gtif.UL[1])), main line 80. -/
def lineNoOf (lat : ℚ) : ℤ := truncTowardZero (-(lat - ulLat))

/-- PixelNo = (int)(Long - DEM_Gtif.LL[0]), main line 81. -/
def pixelNoOf (long : ℚ) : ℤ := truncTowardZero (long - llLong)

/-- Pixel row bounds check, main lines 83-86: error when
LineNo < 0 or LineNo > DEM_Gtif.height. -/
def lineNoOutOfRange (l : ℤ) (height : ℕ) : Bool :=
  decide (l < 0) || decide (l > (height : ℤ))

/-- Pixel column bounds check, main lines 87-90: error when
PixelNo < 0 or PixelNo > DEM_Gtif.width. -/
def pixelNoOutOfRange (p : ℤ) (width : ℕ) : Bool :=
  decide (p < 0) || decide (p > (width : ℤ))

/-- Observable behaviour of the TIFF library on one opened file, restricted
to what setupGtif and readDEMvalue ask of it.  A missing tag is a
TIFFGetField call returning 0; a scanline of none is a TIFFReadScanline
call returning a value less than or equal to 0 for that row. -/
structure TiffFile where
  samplesPerPixel : ℕ
  bitsPerSample : Option ℕ
  width : ℕ
  height : ℕ
  hasPixelScale : Bool
  hasTiePoints : Bool
  allocOk : Bool
  scanline : ℕ → Option (ℕ → ℕ)

/-- Normalisation of bitsPerSample, setupGtif lines 168-169:
if (bitsPerSample > 8 and bitsPerSample <= 16) bitsPerSample = 16. -/
def normBitsPerSample (b : ℕ) : ℕ := if 8 < b ∧ b ≤ 16 then 16 else b

/-- The Gtif session record as populated by a successful setupGtif call. -/
structure Gtif where
  tif : TiffFile
  samplesPerPixel : ℕ
  bitsPerSample : ℕ
  width : ℕ
  height : ℕ
  scaleX : ℚ
  scaleY : ℚ
  windowSize : ℤ
  scanlineSize : ℕ
  lineNo : ℤ

/-- The distinct failure conditions inside setupGtif. -/
inductive SetupErr where
  | fileOpen
  | missingBitsPerSample
  | missingPixelScale
  | missingTiePoints
  | allocFail
  | unsupportedFormat
deriving DecidableEq

/-- Outcome of a setupGtif call: returning FALSE to the caller (no process
exit), terminating the process via exit, or returning TRUE with the
populated session. -/
inductive SetupOutcome where
  | retFalse (e : SetupErr)
  | exits (code : ℕ) (e : SetupErr)
  | ok (g : Gtif)

/-- setupGtif (lines 147-230).  The file argument is none when TIFFOpen
fails for the given path.  jpgWidth and jpgHeight are the fixed reference
image dimensions from the header (used only for the legacy scale factors). -/
def setupGtif (jpgWidth jpgHeight : ℕ) (file : Option TiffFile) : SetupOutcome :=
  match file with
  | none => .retFalse .fileOpen
  | some f =>
    match f.bitsPerSample with
    | none => .retFalse .missingBitsPerSample
    | some rawBits =>
      let bits := normBitsPerSample rawBits
      let scaleX : ℚ := (f.width : ℚ) / (jpgWidth : ℚ)
      let scaleY : ℚ := (f.height : ℚ) / (jpgHeight : ℚ)
      if !f.hasPixelScale then .exits 11 .missingPixelScale
      else
        let windowSize := truncTowardZero (scaleY + 1)
        let scanlineSize := f.width * (bits / 8)
        if !f.hasTiePoints then .exits 11 .missingTiePoints
        else if !f.allocOk then .exits 13 .allocFail
        else if bits ≠ 16 then .exits 11 .unsupportedFormat
        else .ok { tif := f
                   samplesPerPixel := f.samplesPerPixel
                   bitsPerSample := bits
                   width := f.width
                   height := f.height
                   scaleX := scaleX
                   scaleY := scaleY
                   windowSize := windowSize
                   scanlineSize := scanlineSize
                   lineNo := -1 }

/-- The mutable memory readDEMvalue can see: the session's buffered-line
index field (gtif->lineNo), the set of currently allocated heap pointers,
and the heap contents (a pointer maps to a scanline image when one has been
read into it). -/
structure MemState where
  lineNoField : ℤ
  allocated : List ℕ
  contents : ℕ → Option (ℕ → ℕ)

/-- readDEMvalue (lines 115-143).  fresh is the pointer returned by the
malloc of tmpBuf at line 125.  On read failure the program calls exit(11)
(modelled as Except.error 11); on success it extracts tmpBuf[PixelNo],
frees tmpBuf and returns the value. -/
def readDEMvalue (g : Gtif) (fresh : ℕ) (row col : ℕ) (st : MemState) :
    Except ℕ ℕ × MemState :=
  let st1 : MemState := { st with allocated := fresh :: st.allocated }
  match g.tif.scanline row with
  | none => (.error 11, st1)
  | some line =>
      let st2 : MemState :=
        { st1 with contents := fun p => if p = fresh then some line else st1.contents p }
      let v := line col
      (.ok v, { st2 with allocated := st2.allocated.erase fresh })

/-- Result of a run of main: a process exit with a code, a successful run
printing the given line, pixel and DEM value, or a continuation into
undefined behaviour (main line 42 discards setupGtif's FALSE return and
keeps using the uninitialised session, so the later bounds checks read
uninitialised width and height fields). -/
inductive MainResult where
  | exits (code : ℕ)
  | success (line pixel : ℤ) (value : ℕ)
  | uninitAccess
deriving DecidableEq

/-- main (lines 20-112), paired with the list of rows passed to
TIFFReadScanline during the run. -/
def mainRun (jpgWidth jpgHeight : ℕ) (file : Option TiffFile) (lat long : ℚ) :
    MainResult × List ℕ :=
  match setupGtif jpgWidth jpgHeight file with
  | .exits c _ => (.exits c, [])
  | .retFalse _ =>
      if latOutOfRange lat then (.exits 1, [])
      else if longOutOfRange long then (.exits 1, [])
      else (.uninitAccess, [])
  | .ok g =>
      if latOutOfRange lat then (.exits 1, [])
      else if longOutOfRange long then (.exits 1, [])
      else
        let l := lineNoOf lat
        let p := pixelNoOf long
        if lineNoOutOfRange l g.height then (.exits 1, [])
        else if pixelNoOutOfRange p g.width then (.exits 1, [])
        else
          match (readDEMvalue g 0 l.toNat p.toNat
                  { lineNoField := g.lineNo, allocated := [], contents := fun _ => none }).1 with
          | .error c => (.exits c, [l.toNat])
          | .ok v => (.success l p v, [l.toNat])

/-- Pointer-level view of the session fields that closeGtif reads:
windowSize, the scanlines pointer array (entries are pointer values, none
for NULL), the pointer value of the array itself, and the file handle
(none for NULL). -/
structure GtifPtrs where
  windowSize : ℕ
  scanlines : List (Option ℕ)
  pool : ℕ
  tif : Option ℕ

/-- A release action performed by closeGtif: freeing one scanline buffer,
freeing the scanlines array, or closing the TIFF handle. -/
inductive ReleaseEvent where
  | freeBuf (p : ℕ)
  | freePool (p : ℕ)
  | closeHandle (h : ℕ)
deriving DecidableEq

/-- The sequence of release actions performed by one closeGtif call
(lines 233-249): for i in [0, windowSize) free scanlines[i] when non-NULL,
then free the scanlines array, then TIFFClose the handle when non-NULL.
A null session argument performs nothing. -/
def closeGtifEvents (g : Option GtifPtrs) : List ReleaseEvent :=
  match g with
  | none => []
  | some g =>
      ((List.range g.windowSize).filterMap fun i =>
        (g.scanlines.getD i none).map .freeBuf)
      ++ [.freePool g.pool]
      ++ (match g.tif with
          | none => []
          | some h => [.closeHandle h])

/-- closeGtif: the events it performs together with the session value after
the call.  The C body assigns to no field of the struct (freed pointers are
not nulled, there is no closed flag), so the session value is returned
unchanged. -/
def closeGtif (g : Option GtifPtrs) : List ReleaseEvent × Option GtifPtrs :=
  (closeGtifEvents g, g)

/-- A concrete well-formed 16-bit DEM file used to exercise the theorems:
50 pixels wide, 40 rows high, every tag present, every sample 1234. -/
def fileEx : TiffFile :=
  { samplesPerPixel := 1
    bitsPerSample := some 16
    width := 50
    height := 40
    hasPixelScale := true
    hasTiePoints := true
    allocOk := true
    scanline := fun _ => some fun _ => 1234 }

/-- fileEx with an 8-bit sample depth (normalisation leaves 8 unchanged). -/
def fileEx8 : TiffFile := { fileEx with bitsPerSample := some 8 }

/-- The session setupGtif builds from fileEx with reference size 50 by 40. -/
def gtifEx50 : Gtif :=
  { tif := fileEx
    samplesPerPixel := 1
    bitsPerSample := 16
    width := 50
    height := 40
    scaleX := ((50 : ℕ) : ℚ) / ((50 : ℕ) : ℚ)
    scaleY := ((40 : ℕ) : ℚ) / ((40 : ℕ) : ℚ)
    windowSize := truncTowardZero (((40 : ℕ) : ℚ) / ((40 : ℕ) : ℚ) + 1)
    scanlineSize := 100
    lineNo := -1 }

/-- A concrete memory state: buffered-line index -1 and one allocated
scanline-pool buffer at pointer 5. -/
def demoState : MemState :=
  { lineNoField := -1, allocated := [5], contents := fun _ => none }

/-- A concrete open session at the pointer level: two scanline buffers at
pointers 7 and 9, the pool array at pointer 5, the handle at 3. -/
def gtifPtrsEx : GtifPtrs :=
  { windowSize := 2, scanlines := [some 7, some 9], pool := 5, tif := some 3 }

/-- Truncation toward zero agrees with floor plus one on a nonnegative
argument shifted by one, matching the (int)(scaleY+1) cast in line 187. -/
lemma truncTowardZero_add_one_of_nonneg {q : ℚ} (h : 0 ≤ q) :
    truncTowardZero (q + 1) = ⌊q⌋ + 1 := by
  unfold truncTowardZero
  rw [if_pos (by linarith)]
  exact Int.floor_add_one q

/-- Inversion of a successful setupGtif call: how each session field was
computed from the file's metadata. -/
lemma setupGtif_ok_fields {jw jh : ℕ} {f : TiffFile} {g : Gtif}
    (h : setupGtif jw jh (some f) = .ok g) :
    g.scaleY = (f.height : ℚ) / (jh : ℚ) ∧
    g.windowSize = truncTowardZero (g.scaleY + 1) ∧
    g.scanlineSize = g.width * (g.bitsPerSample / 8) ∧
    g.width = f.width ∧ g.height = f.height ∧ g.lineNo = -1 ∧
    g.bitsPerSample = 16 := by
  cases hb : f.bitsPerSample with
  | none => simp [setupGtif, hb] at h
  | some rawBits =>
    cases hps : f.hasPixelScale with
    | false => simp [setupGtif, hb, hps] at h
    | true =>
      cases htp : f.hasTiePoints with
      | false => simp [setupGtif, hb, hps, htp] at h
      | true =>
        cases hal : f.allocOk with
        | false => simp [setupGtif, hb, hps, htp, hal] at h
        | true =>
          by_cases hbit : normBitsPerSample rawBits = 16
          · simp only [setupGtif, hb, hps, htp, hal, hbit, Bool.not_true, Bool.false_eq_true,
              if_false, ne_eq, not_true_eq_false, ite_false, not_false_eq_true,
              SetupOutcome.ok.injEq] at h
            subst h
            exact ⟨rfl, rfl, rfl, rfl, rfl, rfl, rfl⟩
          · simp [setupGtif, hb, hps, htp, hal, hbit] at h

/-- Indexing a fully non-NULL pointer array over its whole range visits
every pointer exactly once, in order. -/
lemma filterMap_range_getD {β : Type} (ptrs : List ℕ) (f : ℕ → β) :
    (List.range ptrs.length).filterMap
        (fun i => ((ptrs.map some).getD i none).map f) = ptrs.map f := by
  induction ptrs with
  | nil => rfl
  | cons a t ih =>
      simp only [List.length_cons, List.range_succ_eq_map, List.filterMap_cons, List.map_cons,
        List.getD_cons_zero, Option.map_some', List.filterMap_map]
      refine congrArg (f a :: ·) ?_
      simpa [Function.comp_def, List.getElem?_cons_succ, List.getElem?_map] using ih

/-- C1: for every latitude/longitude pair that passes the geographic range
check, the computed pixel address is row = truncation toward zero of
-(lat - upper-left latitude) and column = truncation toward zero of
(long - lower-left longitude); in particular (-8.0, 108.0) maps to
(row 0, column 0) and (-9.0, 109.0) maps to (row 1, column 1). -/
theorem c1_pixel_address :
    (∀ lat long : ℚ, latOutOfRange lat = false → longOutOfRange long = false →
        lineNoOf lat = truncTowardZero (-(lat - (-8))) ∧
        pixelNoOf long = truncTowardZero (long - 108)) ∧
    lineNoOf (-8) = 0 ∧ pixelNoOf 108 = 0 ∧
    lineNoOf (-9) = 1 ∧ pixelNoOf 109 = 1 := by
  refine ⟨fun lat long _ _ => ⟨rfl, rfl⟩, ?_, ?_, ?_, ?_⟩ <;>
    norm_num [lineNoOf, pixelNoOf, truncTowardZero, ulLat, llLong]

/-- C1 witness: the corner (-8, 108) passes the geographic check and the
address formulas apply to it. -/
theorem c1_pixel_address_witness :
    lineNoOf (-8) = truncTowardZero (-(-8 - (-8))) ∧
    pixelNoOf 108 = truncTowardZero (108 - 108) :=
  c1_pixel_address.1 (-8) 108
    (by norm_num [latOutOfRange, ulLat, lrLat])
    (by norm_num [longOutOfRange, ulLong, lrLong])

/-- C2: the pixel-bounds validation fails exactly when the row is negative
or strictly greater than the image height, or the column is negative or
strictly greater than the image width; row equal to height and column
equal to width pass (the comparison is strict). -/
theorem c2_pixel_bounds :
    (∀ (r c : ℤ) (h w : ℕ),
        (lineNoOutOfRange r h || pixelNoOutOfRange c w) = true ↔
          r < 0 ∨ r > (h : ℤ) ∨ c < 0 ∨ c > (w : ℤ)) ∧
    (∀ h : ℕ, lineNoOutOfRange (h : ℤ) h = false) ∧
    (∀ w : ℕ, pixelNoOutOfRange (w : ℤ) w = false) := by
  refine ⟨fun r c h w => ?_, fun h => ?_, fun w => ?_⟩
  · simp [lineNoOutOfRange, pixelNoOutOfRange, or_assoc]
  · simp [lineNoOutOfRange]
  · simp [pixelNoOutOfRange]

/-- C7: normalisation maps any bits-per-sample value strictly greater than
8 and at most 16 to exactly 16, and leaves every other value unchanged. -/
theorem c7_bits_norm :
    ∀ b : ℕ, (8 < b ∧ b ≤ 16 → normBitsPerSample b = 16) ∧
      (¬(8 < b ∧ b ≤ 16) → normBitsPerSample b = b) := by
  intro b
  constructor
  · intro hb; simp [normBitsPerSample, hb]
  · intro hb; simp [normBitsPerSample, hb]

/-- C7 witness: 12 bits normalise to 16; 8 bits are left unchanged. -/
theorem c7_bits_norm_witness :
    normBitsPerSample 12 = 16 ∧ normBitsPerSample 8 = 8 :=
  ⟨(c7_bits_norm 12).1 (by decide), (c7_bits_norm 8).2 (by decide)⟩

/-- C3 (code bug): when the raster path cannot be opened, setupGtif prints
the diagnostic and returns FALSE without exiting, but main (line 42)
discards that return value and continues past setup instead of aborting:
with in-range coordinates the run proceeds into the bounds checks on the
uninitialised session (undefined behaviour), so the claimed guaranteed
abort with a non-zero exit status does not happen by design. -/
theorem c3_open_failure_not_terminal :
    setupGtif 3000 3000 none = .retFalse .fileOpen ∧
    (mainRun 3000 3000 none (-10) 110).1 = .uninitAccess := by
  constructor
  · rfl
  · have h1 : latOutOfRange (-10) = false := by norm_num [latOutOfRange, ulLat, lrLat]
    have h2 : longOutOfRange 110 = false := by norm_num [longOutOfRange, ulLong, lrLong]
    simp [mainRun, setupGtif, h1, h2]

/-- C4: the geographic range check rejects, exiting with status 1, exactly
when lat is above the upper-left latitude -8 or below the lower-right
latitude -48, or long is below the upper-left longitude 108 or above the
lower-right longitude 157.99999999; the corner values (-8, 108) pass. -/
theorem c4_geo_range :
    (∀ lat long : ℚ,
        (latOutOfRange lat || longOutOfRange long) = true ↔
          lat > -8 ∨ lat < -48 ∨ long < 108 ∨ long > 15799999999 / 100000000) ∧
    (∀ (jw jh : ℕ) (file : Option TiffFile) (lat long : ℚ),
        (∀ c e, setupGtif jw jh file ≠ .exits c e) →
        (latOutOfRange lat || longOutOfRange long) = true →
        (mainRun jw jh file lat long).1 = .exits 1) ∧
    latOutOfRange (-8) = false ∧ longOutOfRange 108 = false := by
  refine ⟨fun lat long => ?_, fun jw jh file lat long hne hout => ?_, ?_, ?_⟩
  · simp [latOutOfRange, longOutOfRange, ulLat, lrLat, ulLong, lrLong, or_assoc]
  · cases hs : setupGtif jw jh file with
    | exits c e => exact absurd hs (hne c e)
    | retFalse e =>
        cases hlat : latOutOfRange lat with
        | true => simp [mainRun, hs, hlat]
        | false =>
            have hlong : longOutOfRange long = true := by
              rw [hlat] at hout; simpa using hout
            simp [mainRun, hs, hlat, hlong]
    | ok g =>
        cases hlat : latOutOfRange lat with
        | true => simp [mainRun, hs, hlat]
        | false =>
            have hlong : longOutOfRange long = true := by
              rw [hlat] at hout; simpa using hout
            simp [mainRun, hs, hlat, hlong]
  · norm_num [latOutOfRange, ulLat, lrLat]
  · norm_num [longOutOfRange, ulLong, lrLong]

/-- C4 witness: with an unopenable file (whose setup does not exit) and the
out-of-range latitude 0, the run exits with status 1. -/
theorem c4_geo_range_witness :
    (mainRun 1 1 none 0 108).1 = .exits 1 :=
  c4_geo_range.2.1 1 1 none 0 108
    (by intro c e h; simp [setupGtif] at h)
    (by norm_num [latOutOfRange, ulLat, lrLat])

/-- C5: a raster whose normalised bits-per-sample differs from 16 (all
other metadata present and allocations succeeding) makes setupGtif exit
with the unsupported-format diagnostic, and no scanline read happens in
that run. -/
theorem c5_unsupported_bits :
    ∀ (jw jh : ℕ) (f : TiffFile) (rawBits : ℕ),
      f.bitsPerSample = some rawBits →
      f.hasPixelScale = true → f.hasTiePoints = true → f.allocOk = true →
      normBitsPerSample rawBits ≠ 16 →
      setupGtif jw jh (some f) = .exits 11 .unsupportedFormat ∧
      ∀ lat long : ℚ, (mainRun jw jh (some f) lat long).2 = [] := by
  intro jw jh f rawBits hb hps htp hal hbits
  have hsetup : setupGtif jw jh (some f) = .exits 11 .unsupportedFormat := by
    simp [setupGtif, hb, hps, htp, hal, hbits]
  exact ⟨hsetup, fun lat long => by simp [mainRun, hsetup]⟩

/-- C5 witness: the 8-bit variant of the demo file is rejected as
unsupported and its run performs no scanline read. -/
theorem c5_unsupported_bits_witness :
    setupGtif 50 40 (some fileEx8) = .exits 11 .unsupportedFormat ∧
    (mainRun 50 40 (some fileEx8) (-10) 110).2 = [] :=
  ⟨(c5_unsupported_bits 50 40 fileEx8 8 rfl rfl rfl rfl (by decide)).1,
   (c5_unsupported_bits 50 40 fileEx8 8 rfl rfl rfl rfl (by decide)).2 (-10) 110⟩

/-- C6: when the scanline read of the requested row succeeds, readDEMvalue
returns the 16-bit sample at the requested column of that scanline; it
exits the process with status 11 (modelled as the error result 11) exactly
when the underlying read reports failure. -/
theorem c6_read_value :
    ∀ (g : Gtif) (fresh row col : ℕ) (st : MemState),
      (∀ line : ℕ → ℕ, g.tif.scanline row = some line →
          (readDEMvalue g fresh row col st).1 = .ok (line col)) ∧
      ((readDEMvalue g fresh row col st).1 = .error 11 ↔
          g.tif.scanline row = none) := by
  intro g fresh row col st
  cases hs : g.tif.scanline row with
  | none =>
      refine ⟨fun line h => ?_, ?_⟩
      · exact Option.noConfusion h
      · simp [readDEMvalue, hs]
  | some l =>
      refine ⟨fun line h => ?_, ?_⟩
      · cases h
        simp [readDEMvalue, hs]
      · simp [readDEMvalue, hs]

/-- C6 witness: reading row 5 column 10 of the demo session yields the
stored sample 1234, and the failure condition is equivalent to a failing
underlying read. -/
theorem c6_read_value_witness :
    (readDEMvalue gtifEx50 0 5 10 demoState).1 = .ok 1234 ∧
    ((readDEMvalue gtifEx50 0 5 10 demoState).1 = .error 11 ↔
        gtifEx50.tif.scanline 5 = none) :=
  ⟨(c6_read_value gtifEx50 0 5 10 demoState).1 (fun _ => 1234) rfl,
   (c6_read_value gtifEx50 0 5 10 demoState).2⟩

/-- C8: a successful setup derives the scanline buffer window size as
floor(scaleY) + 1 and the scanline byte size as width times bytes per
sample, that is width * (bitsPerSample / 8). -/
theorem c8_window_and_scanline_size :
    ∀ (jw jh : ℕ) (f : TiffFile) (g : Gtif),
      setupGtif jw jh (some f) = .ok g →
      g.windowSize = ⌊g.scaleY⌋ + 1 ∧
      g.scanlineSize = g.width * (g.bitsPerSample / 8) := by
  intro jw jh f g h
  obtain ⟨hsY, hw, hsz, -, -, -, -⟩ := setupGtif_ok_fields h
  refine ⟨?_, hsz⟩
  rw [hw, truncTowardZero_add_one_of_nonneg]
  rw [hsY]
  positivity

/-- C8 witness: the demo session built by setup from the 50 by 40 file has
window size floor(scaleY) + 1 and scanline size width times two bytes. -/
theorem c8_window_and_scanline_size_witness :
    gtifEx50.windowSize = ⌊gtifEx50.scaleY⌋ + 1 ∧
    gtifEx50.scanlineSize = gtifEx50.width * (gtifEx50.bitsPerSample / 8) :=
  c8_window_and_scanline_size 50 40 fileEx gtifEx50 rfl

/-- C9 counterexample: closeGtif does not null the freed pointers and keeps
no closed flag, so calling it again on the same session is not a no-op:
across two consecutive close calls on the concrete open session, scanline
buffer 7 is freed twice (and the second call performs further releases),
refuting the claimed idempotence on an already-closed session. -/
theorem c9_double_close_counterexample :
    ((closeGtif (some gtifPtrsEx)).1 ++
        (closeGtif ((closeGtif (some gtifPtrsEx)).2)).1).count
      (ReleaseEvent.freeBuf 7) = 2 ∧
    (closeGtif ((closeGtif (some gtifPtrsEx)).2)).1 ≠ [] := by
  constructor
  · decide
  · decide

/-- C9 (amended): closeGtif is a no-op on a null session; on an open
session whose windowSize buffers are all allocated it frees every scanline
buffer exactly once, then the buffer pool, then closes the file handle
when open; but it leaves the session fields unchanged (no pointer is
nulled), so a second call on the same session repeats the releases. -/
theorem c9_close_teardown :
    closeGtif none = ([], none) ∧
    ∀ (g : GtifPtrs) (ptrs : List ℕ),
      g.scanlines = ptrs.map some → g.windowSize = ptrs.length → ptrs.Nodup →
      (closeGtif (some g)).1 =
          ptrs.map ReleaseEvent.freeBuf ++ [ReleaseEvent.freePool g.pool] ++
          (match g.tif with
           | none => []
           | some h => [ReleaseEvent.closeHandle h]) ∧
      (∀ p ∈ ptrs, (closeGtif (some g)).1.count (ReleaseEvent.freeBuf p) = 1) ∧
      (closeGtif (some g)).2 = some g := by
  refine ⟨rfl, fun g ptrs hsc hwin hnd => ?_⟩
  have hev : (closeGtif (some g)).1 =
      ptrs.map ReleaseEvent.freeBuf ++ [ReleaseEvent.freePool g.pool] ++
        (match g.tif with
         | none => []
         | some h => [ReleaseEvent.closeHandle h]) := by
    simp only [closeGtif, closeGtifEvents, hsc, hwin]
    rw [filterMap_range_getD]
  refine ⟨hev, fun p hp => ?_, rfl⟩
  rw [hev, List.count_append, List.count_append]
  have h1 : (ptrs.map ReleaseEvent.freeBuf).count (ReleaseEvent.freeBuf p) = 1 := by
    rw [List.count_map_of_injective _ _ (fun a b hab => by injection hab) p]
    exact List.count_eq_one_of_mem hnd hp
  have h2 : ([ReleaseEvent.freePool g.pool] : List ReleaseEvent).count
      (ReleaseEvent.freeBuf p) = 0 := by simp
  have h3 : ((match g.tif with
      | none => []
      | some h => [ReleaseEvent.closeHandle h]) : List ReleaseEvent).count
        (ReleaseEvent.freeBuf p) = 0 := by
    cases g.tif <;> simp
  omega

/-- C9 witness: on the concrete open session with buffers 7 and 9, one
close frees each buffer exactly once and leaves the struct unchanged. -/
theorem c9_close_teardown_witness :
    (closeGtif (some gtifPtrsEx)).1.count (ReleaseEvent.freeBuf 7) = 1 ∧
    (closeGtif (some gtifPtrsEx)).2 = some gtifPtrsEx :=
  ⟨(c9_close_teardown.2 gtifPtrsEx [7, 9] rfl rfl (by decide)).2.1 7 (by decide),
   (c9_close_teardown.2 gtifPtrsEx [7, 9] rfl rfl (by decide)).2.2⟩

/-- C10: a successful readDEMvalue leaves the session untouched: the
buffered-line index field keeps its value, the set of allocated buffers is
unchanged (the temporary buffer is freed before returning), and the
contents of every already-allocated buffer, in particular the session's
pre-allocated scanline pool, are unmodified; moreover setup initialises
the buffered-line index to -1 (no line buffered). -/
theorem c10_read_frame :
    (∀ (g : Gtif) (fresh row col : ℕ) (st : MemState),
        fresh ∉ st.allocated →
        ∀ line : ℕ → ℕ, g.tif.scanline row = some line →
          (readDEMvalue g fresh row col st).2.lineNoField = st.lineNoField ∧
          (readDEMvalue g fresh row col st).2.allocated = st.allocated ∧
          ∀ p ∈ st.allocated,
            (readDEMvalue g fresh row col st).2.contents p = st.contents p) ∧
    (∀ (jw jh : ℕ) (f : TiffFile) (g : Gtif),
        setupGtif jw jh (some f) = .ok g → g.lineNo = -1) := by
  constructor
  · intro g fresh row col st hfresh line hline
    refine ⟨?_, ?_, ?_⟩
    · simp [readDEMvalue, hline]
    · simp [readDEMvalue, hline, List.erase_cons_head]
    · intro p hp
      have hne : p ≠ fresh := fun e => hfresh (e ▸ hp)
      simp [readDEMvalue, hline, hne]
  · intro jw jh f g h
    exact (setupGtif_ok_fields h).2.2.2.2.2.1

/-- C10 witness: reading row 5 column 10 on the demo session with one
pool buffer at pointer 5 leaves the line index, the allocation set and the
pool buffer contents unchanged, and setup built that session with line
index -1. -/
theorem c10_read_frame_witness :
    (readDEMvalue gtifEx50 0 5 10 demoState).2.lineNoField =
        demoState.lineNoField ∧
    (readDEMvalue gtifEx50 0 5 10 demoState).2.allocated =
        demoState.allocated ∧
    (readDEMvalue gtifEx50 0 5 10 demoState).2.contents 5 =
        demoState.contents 5 ∧
    gtifEx50.lineNo = -1 :=
  ⟨(c10_read_frame.1 gtifEx50 0 5 10 demoState (by decide) (fun _ => 1234) rfl).1,
   (c10_read_frame.1 gtifEx50 0 5 10 demoState (by decide) (fun _ => 1234) rfl).2.1,
   (c10_read_frame.1 gtifEx50 0 5 10 demoState (by decide) (fun _ => 1234) rfl).2.2
     5 (by decide),
   c10_read_frame.2 50 40 fileEx gtifEx50 rfl⟩

end ExtractDemHeight
